import Mathlib

/-!
Shallow embedding of the `es38` rotary encoder library (`src/src/lib.rs`).

The library tracks the angular position (`Angle`) and rotational velocity
(`Velocity`, a two-sample window) of a quadrature rotary encoder; `Encoder`
composes both with an external direction source (the `Rotary<A, B>` pin
hardware).

Modelling conventions:
* `i16` counts are modelled as `Int` together with the explicit two's-complement
  wrap `wrap16` at every arithmetic step, which is Rust's release-mode overflow
  behaviour for `i16` (`+=`, `-=`, `-`).
* `u16` `counts_per_rev` and `Milliseconds<u32>` timestamps are modelled as
  `Nat`; the only timestamp arithmetic in the source is a comparison and a
  subtraction guarded by that comparison, so no `u32` wrap can occur there.
* `f32` arithmetic in `degrees`/`radians` is idealised as exact rational
  arithmetic over `ℚ` (with the `f32` constant `core::f32::consts::PI`
  represented by its exact rational value `pi32`); the claims settled below
  concern the formulas and the error structure, not `f32` rounding.
* The `assert!` in `impl Sub for Angle` (a panic) is modelled by `Option`:
  `none` is the panic, `some` the normal return.  The panic possibility
  propagates into `angle_time_diffs`, `degrees_per_sec`, `radians_per_sec`.
* The external direction source (`self.hardware.update()`, returning
  `Result<Direction, Either<A::Error, B::Error>>`) is an outside collaborator;
  its result is passed to `Encoder.update` as an input of type
  `Except ε Direction` with `ε` the (generic) hardware error type.
-/

namespace ES38

/-- Two's-complement wrap of an integer into the `i16` range
`[-32768, 32767]`, modelling Rust release-mode overflow of `i16` arithmetic. -/
def wrap16 (x : Int) : Int :=
  (x + 32768) % 65536 - 32768

/-- `rotary_encoder_hal::Direction`: the outcome of decoding one quadrature
transition. -/
inductive Direction where
  | Clockwise
  | CounterClockwise
  | None
  deriving DecidableEq

/-- The library's error enum (`enum Error` in `lib.rs`). -/
inductive Error where
  | VelocityArithmeticOverflowWouldOccur
  deriving DecidableEq

/-- `const DEGREES_PER_REV: u16 = 360;` -/
def DEGREES_PER_REV : Nat := 360

/-- Exact rational value of the `f32` constant `core::f32::consts::PI`
(bit pattern `0x40490FDB`). -/
def pi32 : ℚ := 13176795 / 4194304

/-- `struct Angle { counts: i16, counts_per_rev: u16 }`. -/
structure Angle where
  counts : Int
  counts_per_rev : Nat
  deriving DecidableEq

/-- `Angle::new(counts_per_rev, origin_offset_counts)`. -/
def Angle.new (counts_per_rev : Nat) (origin_offset_counts : Int) : Angle :=
  { counts := origin_offset_counts, counts_per_rev := counts_per_rev }

/-- `Angle::update(direction)`: `+= 1` on CounterClockwise, `-= 1` on
Clockwise, nothing on `Direction::None` (i16 arithmetic, hence `wrap16`). -/
def Angle.update (a : Angle) (direction : Direction) : Angle :=
  match direction with
  | Direction.CounterClockwise => { a with counts := wrap16 (a.counts + 1) }
  | Direction.Clockwise => { a with counts := wrap16 (a.counts - 1) }
  | Direction.None => a

/-- `impl Sub for Angle`: `assert!(self.counts_per_rev == other.counts_per_rev)`
then subtract the counts.  `none` models the assertion failure (panic). -/
def Angle.sub (a other : Angle) : Option Angle :=
  if a.counts_per_rev = other.counts_per_rev then
    some { counts := wrap16 (a.counts - other.counts),
           counts_per_rev := a.counts_per_rev }
  else
    none

/-- `Angle::degrees()`: `counts * degrees_per_rev / counts_per_rev` over `f32`,
idealised over `ℚ`. -/
def Angle.degrees (a : Angle) : ℚ :=
  let counts : ℚ := (a.counts : ℚ)
  let degrees_per_rev : ℚ := (DEGREES_PER_REV : ℚ)
  let counts_per_rev : ℚ := (a.counts_per_rev : ℚ)
  counts * degrees_per_rev / counts_per_rev

/-- `Angle::radians()`: `self.degrees() * PI / 180.0`. -/
def Angle.radians (a : Angle) : ℚ :=
  a.degrees * pi32 / 180

/-- `struct Velocity`: the two-sample window. -/
structure Velocity where
  initial_time_since_epoch_milli_sec : Nat
  final_time_since_epoch_milli_sec : Nat
  initial_angle : Angle
  final_angle : Angle
  deriving DecidableEq

/-- `Velocity::new`. -/
def Velocity.new (initial_time_since_epoch_milli_sec : Nat)
    (final_time_since_epoch_milli_sec : Nat)
    (initial_angle : Angle) (final_angle : Angle) : Velocity :=
  { initial_time_since_epoch_milli_sec := initial_time_since_epoch_milli_sec
    final_time_since_epoch_milli_sec := final_time_since_epoch_milli_sec
    initial_angle := initial_angle
    final_angle := final_angle }

/-- `Velocity::update(current_angle, current_time)`: slides the window
unconditionally — old final becomes initial, the new sample becomes final. -/
def Velocity.update (v : Velocity) (current_angle : Angle)
    (current_time_since_epoch_milli_sec : Nat) : Velocity :=
  { initial_angle := v.final_angle
    final_angle := current_angle
    initial_time_since_epoch_milli_sec := v.final_time_since_epoch_milli_sec
    final_time_since_epoch_milli_sec := current_time_since_epoch_milli_sec }

/-- `Velocity::angle_time_diffs`: computes `final_angle - initial_angle`
(which may panic on a scale mismatch, hence the outer `Option`), then errors
with `VelocityArithmeticOverflowWouldOccur` when the final timestamp precedes
the initial one, else returns the non-negative time delta. -/
def Velocity.angle_time_diffs (v : Velocity) :
    Option (Angle × Except Error Nat) :=
  match v.final_angle.sub v.initial_angle with
  | none => none
  | some delta_angle =>
    if v.final_time_since_epoch_milli_sec < v.initial_time_since_epoch_milli_sec then
      some (delta_angle, Except.error Error.VelocityArithmeticOverflowWouldOccur)
    else
      some (delta_angle, Except.ok
        (v.final_time_since_epoch_milli_sec - v.initial_time_since_epoch_milli_sec))

/-- `Velocity::radians_per_sec`: `delta_angle.radians() / (delta_ms / 1000)`;
the `?` on the time delta propagates the error. -/
def Velocity.radians_per_sec (v : Velocity) : Option (Except Error ℚ) :=
  match v.angle_time_diffs with
  | none => none
  | some (_, Except.error e) => some (Except.error e)
  | some (delta_angle, Except.ok delta_time_milli_sec) =>
      some (Except.ok (delta_angle.radians / ((delta_time_milli_sec : ℚ) / 1000)))

/-- `Velocity::degrees_per_sec`: `delta_angle.degrees() / (delta_ms / 1000)`;
the `?` on the time delta propagates the error. -/
def Velocity.degrees_per_sec (v : Velocity) : Option (Except Error ℚ) :=
  match v.angle_time_diffs with
  | none => none
  | some (_, Except.error e) => some (Except.error e)
  | some (delta_angle, Except.ok delta_time_milli_sec) =>
      some (Except.ok (delta_angle.degrees / ((delta_time_milli_sec : ℚ) / 1000)))

/-- `struct Encoder`: the software state of the session (the `hardware`
field — the pin pair — is the external collaborator and carries no modelled
state; its decode result is an input to `Encoder.update`). -/
structure Encoder where
  angle : Angle
  velocity : Velocity
  deriving DecidableEq

/-- `Encoder::new(pin_a, pin_b, starting_angle, initial_time)`: both window
ends are initialised to the starting sample (at rest). -/
def Encoder.new (starting_angle : Angle)
    (initial_time_since_epoch_milli_sec : Nat) : Encoder :=
  { angle := starting_angle
    velocity := Velocity.new initial_time_since_epoch_milli_sec
      initial_time_since_epoch_milli_sec starting_angle starting_angle }

/-- `Encoder::update(current_time)`: `let direction = self.hardware.update()?;`
then `self.angle.update(direction)` then
`self.velocity.update(self.angle, current_time)`.  The hardware decode result
is the `hardware_update` input; on its error the state is returned unchanged. -/
def Encoder.update {ε : Type} (e : Encoder) (hardware_update : Except ε Direction)
    (current_time_since_epoch : Nat) : Except ε Direction × Encoder :=
  match hardware_update with
  | Except.error err => (Except.error err, e)
  | Except.ok direction =>
    let angle := e.angle.update direction
    let velocity := e.velocity.update angle current_time_since_epoch
    (Except.ok direction, { angle := angle, velocity := velocity })

/-- `Encoder::velocity(current_angle, current_time)`: overwrites the window's
final sample with the supplied one, clones that window as the returned
snapshot, then slides the window with the same sample. -/
def Encoder.velocityRead (e : Encoder) (current_angle : Angle)
    (current_time_since_epoch_milli_sec : Nat) : Velocity × Encoder :=
  let v1 : Velocity :=
    { e.velocity with
        final_time_since_epoch_milli_sec := current_time_since_epoch_milli_sec
        final_angle := current_angle }
  let calculated_velocity := v1
  let v2 := v1.update current_angle current_time_since_epoch_milli_sec
  (calculated_velocity, { e with velocity := v2 })

/-- Scale invariant of one encoder session: every `Angle` held by the state
carries the `counts_per_rev` supplied at construction. -/
def Encoder.sharedScale (c : Nat) (e : Encoder) : Prop :=
  e.angle.counts_per_rev = c ∧
  e.velocity.initial_angle.counts_per_rev = c ∧
  e.velocity.final_angle.counts_per_rev = c

instance (c : Nat) (e : Encoder) : Decidable (Encoder.sharedScale c e) := by
  unfold Encoder.sharedScale
  infer_instance

end ES38

namespace ES38

/-- Helper: `Angle.update` never touches `counts_per_rev`. -/
theorem Angle.update_counts_per_rev (a : Angle) (d : Direction) :
    (a.update d).counts_per_rev = a.counts_per_rev := by
  cases d <;> rfl

/-- Helper: on a window whose two angles share a scale, `angle_time_diffs`
does not panic; it returns the wrapped count delta paired with either the
overflow error (timestamps inverted) or the time delta. -/
theorem Velocity.angle_time_diffs_of_eq_scale (v : Velocity)
    (h : v.initial_angle.counts_per_rev = v.final_angle.counts_per_rev) :
    v.angle_time_diffs =
      some (Angle.mk (wrap16 (v.final_angle.counts - v.initial_angle.counts))
              v.final_angle.counts_per_rev,
            if v.final_time_since_epoch_milli_sec < v.initial_time_since_epoch_milli_sec
            then Except.error Error.VelocityArithmeticOverflowWouldOccur
            else Except.ok (v.final_time_since_epoch_milli_sec -
                   v.initial_time_since_epoch_milli_sec)) := by
  have hs : v.final_angle.sub v.initial_angle =
      some (Angle.mk (wrap16 (v.final_angle.counts - v.initial_angle.counts))
        v.final_angle.counts_per_rev) := by
    simp [Angle.sub, h]
  simp [Velocity.angle_time_diffs, hs]
  split <;> rfl

/-- C1: for every velocity window (whose two angles share a scale, the
documented precondition of angle subtraction), `degrees_per_sec` and
`radians_per_sec` return `Error.VelocityArithmeticOverflowWouldOccur` exactly
when the final timestamp is strictly before the initial one, and return `Ok`
for every window whose final timestamp is greater than or equal to the initial
one — including equal timestamps (`delta_time == 0`). -/
theorem C1_rate_error_iff_time_inversion (v : Velocity)
    (h : v.initial_angle.counts_per_rev = v.final_angle.counts_per_rev) :
    (v.degrees_per_sec = some (Except.error Error.VelocityArithmeticOverflowWouldOccur) ↔
      v.final_time_since_epoch_milli_sec < v.initial_time_since_epoch_milli_sec) ∧
    (v.radians_per_sec = some (Except.error Error.VelocityArithmeticOverflowWouldOccur) ↔
      v.final_time_since_epoch_milli_sec < v.initial_time_since_epoch_milli_sec) ∧
    (v.initial_time_since_epoch_milli_sec ≤ v.final_time_since_epoch_milli_sec →
      (∃ q, v.degrees_per_sec = some (Except.ok q)) ∧
      (∃ q, v.radians_per_sec = some (Except.ok q))) := by
  have hd := Velocity.angle_time_diffs_of_eq_scale v h
  by_cases hlt : v.final_time_since_epoch_milli_sec < v.initial_time_since_epoch_milli_sec
  · refine ⟨?_, ?_, fun hle => absurd hlt (by omega)⟩
    · simp [Velocity.degrees_per_sec, hd, hlt]
    · simp [Velocity.radians_per_sec, hd, hlt]
  · refine ⟨?_, ?_, fun _ => ⟨?_, ?_⟩⟩
    · simp [Velocity.degrees_per_sec, hd, hlt]
    · simp [Velocity.radians_per_sec, hd, hlt]
    · refine ⟨(Angle.mk (wrap16 (v.final_angle.counts - v.initial_angle.counts))
        v.final_angle.counts_per_rev).degrees /
        (((v.final_time_since_epoch_milli_sec - v.initial_time_since_epoch_milli_sec : Nat) : ℚ) /
          1000), ?_⟩
      simp [Velocity.degrees_per_sec, hd, hlt]
    · refine ⟨(Angle.mk (wrap16 (v.final_angle.counts - v.initial_angle.counts))
        v.final_angle.counts_per_rev).radians /
        (((v.final_time_since_epoch_milli_sec - v.initial_time_since_epoch_milli_sec : Nat) : ℚ) /
          1000), ?_⟩
      simp [Velocity.radians_per_sec, hd, hlt]

/-- Witness for C1 at the concrete window with initial time 5, final time 3:
the hypothesis holds and the error is returned there. -/
theorem C1_witness :
    (Velocity.new 5 3 (Angle.new 600 0) (Angle.new 600 7)).initial_angle.counts_per_rev =
      (Velocity.new 5 3 (Angle.new 600 0) (Angle.new 600 7)).final_angle.counts_per_rev ∧
    ((Velocity.new 5 3 (Angle.new 600 0) (Angle.new 600 7)).degrees_per_sec =
        some (Except.error Error.VelocityArithmeticOverflowWouldOccur) ↔
      (Velocity.new 5 3 (Angle.new 600 0) (Angle.new 600 7)).final_time_since_epoch_milli_sec <
        (Velocity.new 5 3 (Angle.new 600 0) (Angle.new 600 7)).initial_time_since_epoch_milli_sec) :=
  ⟨rfl, (C1_rate_error_iff_time_inversion (Velocity.new 5 3 (Angle.new 600 0) (Angle.new 600 7)) rfl).1⟩

/-- C2 counterexample: `Encoder::velocity` overwrites the window's final
sample with the caller's sample before cloning, so the returned snapshot's
final angle is the supplied angle, not the pre-call stored final angle. -/
theorem C2_counterexample :
    ((Encoder.new (Angle.new 600 0) 0).velocityRead (Angle.new 600 5) 10).fst.final_angle ≠
      (Encoder.new (Angle.new 600 0) 0).velocity.final_angle := by
  decide

/-- C2 (amended): the snapshot returned by `Encoder::velocity` keeps the
pre-call initial sample, but its final sample is the caller-supplied
`(current_angle, current_timestamp)` — the window with its final sample
refreshed, taken before the slide — not the pre-call stored final sample. -/
theorem C2_snapshot_fields (e : Encoder) (a : Angle) (t : Nat) :
    (e.velocityRead a t).fst.initial_angle = e.velocity.initial_angle ∧
    (e.velocityRead a t).fst.initial_time_since_epoch_milli_sec =
      e.velocity.initial_time_since_epoch_milli_sec ∧
    (e.velocityRead a t).fst.final_angle = a ∧
    (e.velocityRead a t).fst.final_time_since_epoch_milli_sec = t :=
  ⟨rfl, rfl, rfl, rfl⟩

/-- C3 counterexample: after one CounterClockwise pulse the window is
(angle 0, angle 1); a NoMotion pulse then still slides the window, changing
its initial angle from counts 0 to counts 1 — the window's angle values are
not left unchanged. -/
theorem C3_counterexample :
    ¬ ((((Encoder.new (Angle.new 600 0) 0).update
          (Except.ok Direction.CounterClockwise : Except Unit Direction) 5).snd.update
          (Except.ok Direction.None : Except Unit Direction) 7).snd.velocity.initial_angle =
        ((Encoder.new (Angle.new 600 0) 0).update
          (Except.ok Direction.CounterClockwise : Except Unit Direction) 5).snd.velocity.initial_angle) := by
  decide

/-- C3 (amended): when `Encoder::update` decodes NoMotion, the Angle's counts
are unchanged (the stored angle is exactly the old one), but the velocity
window still slides: its new final angle is the (unchanged) encoder angle,
its new initial angle is the pre-call final angle, and the timestamps slide
likewise (new final timestamp is the supplied one). -/
theorem C3_nomotion_updates (ε : Type) (e : Encoder) (t : Nat) :
    (Encoder.update e (Except.ok Direction.None : Except ε Direction) t).snd.angle = e.angle ∧
    (Encoder.update e (Except.ok Direction.None : Except ε Direction) t).snd.angle.counts =
      e.angle.counts ∧
    (Encoder.update e (Except.ok Direction.None : Except ε Direction) t).snd.velocity.final_angle =
      e.angle ∧
    (Encoder.update e (Except.ok Direction.None : Except ε Direction) t).snd.velocity.initial_angle =
      e.velocity.final_angle ∧
    (Encoder.update e (Except.ok Direction.None : Except ε Direction) t).snd.velocity.initial_time_since_epoch_milli_sec =
      e.velocity.final_time_since_epoch_milli_sec ∧
    (Encoder.update e (Except.ok Direction.None : Except ε Direction) t).snd.velocity.final_time_since_epoch_milli_sec =
      t :=
  ⟨rfl, rfl, rfl, rfl, rfl, rfl⟩

/-- C4: when the external direction source fails, `Encoder::update` returns
the error unchanged and leaves the whole state (angle and velocity window)
unmodified; when it succeeds, the direction is applied to the angle first,
then the new angle and the supplied timestamp are fed to the velocity window,
and the decoded direction is returned. -/
theorem C4_error_propagation_and_success_order (ε : Type) (e : Encoder) (err : ε)
    (d : Direction) (t : Nat) :
    Encoder.update e (Except.error err : Except ε Direction) t =
      ((Except.error err : Except ε Direction), e) ∧
    Encoder.update e (Except.ok d : Except ε Direction) t =
      ((Except.ok d : Except ε Direction),
        { angle := e.angle.update d,
          velocity := e.velocity.update (e.angle.update d) t }) :=
  ⟨rfl, rfl⟩

/-- C5: `Velocity::update` always slides the window — for every new sample,
including one whose timestamp is earlier than the current final timestamp:
the old final sample becomes the new initial sample and the supplied sample
becomes the new final sample; no sample is dropped. -/
theorem C5_update_always_slides (v : Velocity) (a : Angle) (t : Nat) :
    (v.update a t).initial_angle = v.final_angle ∧
    (v.update a t).initial_time_since_epoch_milli_sec =
      v.final_time_since_epoch_milli_sec ∧
    (v.update a t).final_angle = a ∧
    (v.update a t).final_time_since_epoch_milli_sec = t :=
  ⟨rfl, rfl, rfl, rfl⟩

/-- C6 counterexample: at the upper `i16` boundary (counts = 32767) a
CounterClockwise update does not increment counts by exactly 1 — the `i16`
addition overflows (wrapping to -32768 under release semantics; a panic under
debug semantics), so the claim is not true of every Angle state. -/
theorem C6_counterexample :
    ((Angle.new 600 32767).update Direction.CounterClockwise).counts ≠
      (Angle.new 600 32767).counts + 1 := by
  decide

/-- C6 (amended): away from the `i16` boundary, CounterClockwise increments
counts by exactly 1 and Clockwise decrements by exactly 1; `Direction::None`
always leaves counts unchanged; no direction touches `counts_per_rev`.  At the
boundary the underlying `i16` arithmetic overflows (wrap in release builds,
panic in debug builds), which the function itself does not guard against. -/
theorem C6_update_counts (a : Angle) :
    (-32768 ≤ a.counts → a.counts < 32767 →
      (a.update Direction.CounterClockwise).counts = a.counts + 1) ∧
    (-32768 < a.counts → a.counts ≤ 32767 →
      (a.update Direction.Clockwise).counts = a.counts - 1) ∧
    (a.update Direction.None).counts = a.counts ∧
    (∀ d, (a.update d).counts_per_rev = a.counts_per_rev) := by
  refine ⟨?_, ?_, rfl, fun d => Angle.update_counts_per_rev a d⟩
  · intro h1 h2
    simp only [Angle.update, wrap16]
    omega
  · intro h1 h2
    simp only [Angle.update, wrap16]
    omega

/-- Witness for C6 at counts = 0: the range hypotheses hold and a
CounterClockwise update increments counts by exactly 1. -/
theorem C6_witness :
    (-32768 ≤ (Angle.new 600 0).counts ∧ (Angle.new 600 0).counts < 32767) ∧
    ((Angle.new 600 0).update Direction.CounterClockwise).counts =
      (Angle.new 600 0).counts + 1 :=
  ⟨⟨by decide, by decide⟩,
   (C6_update_counts (Angle.new 600 0)).1 (by decide) (by decide)⟩

/-- C8 counterexample: with the shared scale 600, subtracting counts -1 from
counts 32767 succeeds but produces counts -32768 (the wrapped `i16` value in a
release build; a debug build panics), which is not the signed difference
32768 — so the equal-scale half of the claim fails at the `i16` boundary. -/
theorem C8_counterexample :
    (Angle.new 600 32767).sub (Angle.new 600 (-1)) = some (Angle.mk (-32768) 600) ∧
    (Angle.new 600 32767).counts - (Angle.new 600 (-1)).counts ≠ (-32768 : Int) := by
  exact ⟨by decide, by decide⟩

/-- C8 (amended): subtracting two Angles with different `counts_per_rev`
triggers the assertion (the programmer-error path) and never computes a delta;
with equal `counts_per_rev` the subtraction returns an Angle carrying the
shared scale and the `i16`-wrapped difference of the counts, which is the
exact signed difference whenever that difference fits in `i16`. -/
theorem C8_sub_spec (a b : Angle) :
    (a.counts_per_rev ≠ b.counts_per_rev → a.sub b = none) ∧
    (a.counts_per_rev = b.counts_per_rev →
      a.sub b = some (Angle.mk (wrap16 (a.counts - b.counts)) a.counts_per_rev) ∧
      (-32768 ≤ a.counts - b.counts → a.counts - b.counts ≤ 32767 →
        a.sub b = some (Angle.mk (a.counts - b.counts) a.counts_per_rev))) := by
  refine ⟨fun h => by simp [Angle.sub, h], fun h => ⟨by simp [Angle.sub, h], ?_⟩⟩
  intro h1 h2
  have hw : wrap16 (a.counts - b.counts) = a.counts - b.counts := by
    unfold wrap16
    omega
  simp [Angle.sub, h, hw]

/-- Witness for C8 at counts 300 and 100 with shared scale 600: the scale
hypothesis and range hypotheses hold, and the subtraction returns the exact
signed difference 200 with the shared scale. -/
theorem C8_witness :
    (Angle.new 600 300).counts_per_rev = (Angle.new 600 100).counts_per_rev ∧
    (Angle.new 600 300).sub (Angle.new 600 100) =
      some (Angle.mk ((Angle.new 600 300).counts - (Angle.new 600 100).counts)
        (Angle.new 600 300).counts_per_rev) :=
  ⟨rfl, ((C8_sub_spec (Angle.new 600 300) (Angle.new 600 100)).2 rfl).2
    (by decide) (by decide)⟩

/-- C7: `degrees` is counts × 360 / counts_per_rev and `radians` is
degrees × π / 180 (with the `f32` constant π represented exactly by `pi32`);
both are pure functions of the Angle state, so the relation holds for every
Angle state. -/
theorem C7_degrees_radians_formulas (a : Angle) :
    a.degrees = (a.counts : ℚ) * 360 / (a.counts_per_rev : ℚ) ∧
    a.radians = a.degrees * pi32 / 180 := by
  constructor
  · norm_num [Angle.degrees, DEGREES_PER_REV]
  · rfl

/-- C9: after `Encoder::velocity(current_angle, current_timestamp)` the stored
window is degenerate — all four fields equal the supplied sample; the pre-call
final sample was overwritten before the slide, so it is discarded rather than
becoming the new initial sample. -/
theorem C9_window_degenerate_after_read (e : Encoder) (a : Angle) (t : Nat) :
    (e.velocityRead a t).snd.velocity.initial_angle = a ∧
    (e.velocityRead a t).snd.velocity.final_angle = a ∧
    (e.velocityRead a t).snd.velocity.initial_time_since_epoch_milli_sec = t ∧
    (e.velocityRead a t).snd.velocity.final_time_since_epoch_milli_sec = t :=
  ⟨rfl, rfl, rfl, rfl⟩

/-- C10: every operation preserves `counts_per_rev` — `Angle.new` stores the
given scale, `Angle.update` never modifies it, equal-scale subtraction returns
the shared scale — and the session invariant `sharedScale` (every Angle in the
state carries the construction-time scale) holds at `Encoder.new` and is
preserved by `Encoder.update` and by `Encoder.velocityRead` when the supplied
angle carries the session scale; on any window whose two angles share a scale,
the scale-mismatch assertion inside rate computation cannot fire. -/
theorem C10_scale_preserved (c : Nat) (o : Int) (a b : Angle) (e : Encoder) (t : Nat) :
    (Angle.new c o).counts_per_rev = c ∧
    (∀ d, (a.update d).counts_per_rev = a.counts_per_rev) ∧
    (a.counts_per_rev = b.counts_per_rev →
      ∃ r, a.sub b = some r ∧ r.counts_per_rev = a.counts_per_rev) ∧
    Encoder.sharedScale c (Encoder.new (Angle.new c o) t) ∧
    (Encoder.sharedScale c e → ∀ hw : Except Unit Direction,
      Encoder.sharedScale c (e.update hw t).snd) ∧
    (Encoder.sharedScale c e → a.counts_per_rev = c →
      Encoder.sharedScale c (e.velocityRead a t).snd) ∧
    (e.velocity.initial_angle.counts_per_rev = e.velocity.final_angle.counts_per_rev →
      e.velocity.angle_time_diffs.isSome ∧
      e.velocity.degrees_per_sec.isSome ∧
      e.velocity.radians_per_sec.isSome) := by
  refine ⟨rfl, fun d => Angle.update_counts_per_rev a d, ?_, ⟨rfl, rfl, rfl⟩, ?_, ?_, ?_⟩
  · intro h
    exact ⟨Angle.mk (wrap16 (a.counts - b.counts)) a.counts_per_rev,
      by simp [Angle.sub, h], rfl⟩
  · rintro ⟨h1, h2, h3⟩ hw
    cases hw with
    | error err => exact ⟨h1, h2, h3⟩
    | ok d => exact ⟨(Angle.update_counts_per_rev e.angle d).trans h1, h3,
        (Angle.update_counts_per_rev e.angle d).trans h1⟩
  · rintro ⟨h1, h2, h3⟩ ha
    exact ⟨h1, ha, ha⟩
  · intro h
    have hd := Velocity.angle_time_diffs_of_eq_scale e.velocity h
    refine ⟨by simp [hd], ?_, ?_⟩
    · simp only [Velocity.degrees_per_sec, hd]
      split <;> simp_all
    · simp only [Velocity.radians_per_sec, hd]
      split <;> simp_all

/-- Witness for C10: the session invariant holds for a freshly constructed
session with scale 600 and is preserved by one Clockwise update. -/
theorem C10_witness :
    Encoder.sharedScale 600 (Encoder.new (Angle.new 600 0) 0) ∧
    Encoder.sharedScale 600
      ((Encoder.new (Angle.new 600 0) 0).update
        (Except.ok Direction.Clockwise : Except Unit Direction) 0).snd := by
  have h := C10_scale_preserved 600 0 (Angle.new 600 0) (Angle.new 600 0)
    (Encoder.new (Angle.new 600 0) 0) 0
  exact ⟨h.2.2.2.1, h.2.2.2.2.1 h.2.2.2.1 (Except.ok Direction.Clockwise)⟩

end ES38
